import Mathlib

/-!
Verification of the CKG (code knowledge graph) core of the juggler repository.

The development shallowly embeds the code of
`trae_agent/tools/ckg/base.py`, `trae_agent/tools/ckg/ckg_database.py`,
`trae_agent/tools/ckg/parsers/python_parser.py` and
`trae_agent/tools/ckg_tool.py`:

* Python strings are Lean `String`s; Python `str[:n]` and `len` are modelled
  on the character list `String.data`, matching Python's code-point slicing.
* The SQLite store is a record with one list per table; the rows of a table
  are exactly the columns of its `CREATE TABLE` statement.  A SQL statement
  is a constructor of `DbStmt`, and `DbStmt.exec` gives it the SQLite
  semantics (INSERT appends one row, SELECT leaves every table unchanged).
* `subprocess.run` with `capture_output` either raises
  (`FileNotFoundError` when the tool is missing, `TimeoutExpired` on
  timeout) or returns a completed process carrying a return code and
  stdout; without `check=True` it never raises `CalledProcessError`.
  Each probe's outcome is therefore an `Except` value handed to the
  fingerprinting functions.
* The directory walk yields `WalkFile` records; the behaviour of a
  language visitor on one file (the entries it inserts before possibly
  raising) is carried on the file record, except for the Python visitor,
  which is embedded concretely as `recursive_visit_python`.
-/

namespace Juggler

/-! ## String helpers (Python string operations on code points) -/

/-- Length of a string in code points, as Python `len`. -/
def strLen (s : String) : Nat := s.data.length

/-- Python slicing `s[:n]` by code points. -/
def strTake (s : String) (n : Nat) : String := String.mk (s.data.take n)

/-- Python `s.strip()`: drop leading and trailing whitespace. -/
def strTrim (s : String) : String :=
  String.mk
    (((s.data.dropWhile Char.isWhitespace).reverse.dropWhile Char.isWhitespace).reverse)

/-- Python `s.startswith(p)` on code points. -/
def listStartsWith : List Char → List Char → Bool
  | _, [] => true
  | [], _ :: _ => false
  | a :: as, b :: bs => a == b && listStartsWith as bs

/-- Python `s.startswith(p)`. -/
def strStartsWith (s p : String) : Bool := listStartsWith s.data p.data

/-- Python `needle in hay` for lists of code points. -/
def listContainsSub (hay needle : List Char) : Bool :=
  match hay with
  | [] => needle == []
  | _ :: t => listStartsWith hay needle || listContainsSub t needle

/-- Python `needle in hay` on strings. -/
def strContainsSub (hay needle : String) : Bool := listContainsSub hay.data needle.data

/-- Predicate: `needle` occurs contiguously inside `hay`. -/
def SubstrOf (needle hay : String) : Prop :=
  ∃ pre post, hay.data = pre ++ needle.data ++ post

/-! ## Entity model — `trae_agent/tools/ckg/base.py` -/

/-- Dataclass `FunctionEntry`. -/
structure FunctionEntry where
  name : String
  file_path : String
  body : String
  start_line : Nat
  end_line : Nat
  parent_function : Option String := none
  parent_class : Option String := none
deriving DecidableEq, Repr

/-- Dataclass `ClassEntry`. -/
structure ClassEntry where
  name : String
  file_path : String
  body : String
  start_line : Nat
  end_line : Nat
  fields : Option String := none
  methods : Option String := none
deriving DecidableEq, Repr

/-- Dataclass `EnumEntry`. -/
structure EnumEntry where
  name : String
  file_path : String
  body : String
  start_line : Nat
  end_line : Nat
  variants : Option String := none
  parent_class : Option String := none
deriving DecidableEq, Repr

/-- Dataclass `InterfaceEntry`. -/
structure InterfaceEntry where
  name : String
  file_path : String
  body : String
  start_line : Nat
  end_line : Nat
  methods : Option String := none
  properties : Option String := none
deriving DecidableEq, Repr

/-- Dataclass `StructEntry`. -/
structure StructEntry where
  name : String
  file_path : String
  body : String
  start_line : Nat
  end_line : Nat
  fields : Option String := none
  methods : Option String := none
deriving DecidableEq, Repr

/-- Dataclass `TraitEntry`. -/
structure TraitEntry where
  name : String
  file_path : String
  body : String
  start_line : Nat
  end_line : Nat
  methods : Option String := none
  associated_types : Option String := none
deriving DecidableEq, Repr

/-- Dataclass `ModuleEntry`. -/
structure ModuleEntry where
  name : String
  file_path : String
  body : String
  start_line : Nat
  end_line : Nat
  exports : Option String := none
  imports : Option String := none
deriving DecidableEq, Repr

/-- Dataclass `NamespaceEntry`. -/
structure NamespaceEntry where
  name : String
  file_path : String
  body : String
  start_line : Nat
  end_line : Nat
  members : Option String := none
deriving DecidableEq, Repr

/-- Dataclass `TypeAliasEntry`. -/
structure TypeAliasEntry where
  name : String
  file_path : String
  body : String
  start_line : Nat
  end_line : Nat
  target_type : Option String := none
deriving DecidableEq, Repr

/-- Dataclass `ComponentEntry`. -/
structure ComponentEntry where
  name : String
  file_path : String
  body : String
  start_line : Nat
  end_line : Nat
  props : Option String := none
  methods : Option String := none
  template : Option String := none
deriving DecidableEq, Repr

/-- Dataclass `ContractEntry`. -/
structure ContractEntry where
  name : String
  file_path : String
  body : String
  start_line : Nat
  end_line : Nat
  functions : Option String := none
  events : Option String := none
  modifiers : Option String := none
  state_variables : Option String := none
deriving DecidableEq, Repr

/-- Dataclass `ExtensionEntry`. -/
structure ExtensionEntry where
  name : String
  file_path : String
  body : String
  start_line : Nat
  end_line : Nat
  extended_type : Option String := none
  methods : Option String := none
deriving DecidableEq, Repr

/-- Dataclass `UnionEntry`. -/
structure UnionEntry where
  name : String
  file_path : String
  body : String
  start_line : Nat
  end_line : Nat
  variants : Option String := none
deriving DecidableEq, Repr

/-- Dataclass `GenericTypeEntry`. -/
structure GenericTypeEntry where
  name : String
  file_path : String
  body : String
  start_line : Nat
  end_line : Nat
  type_parameters : Option String := none
  constraints : Option String := none
deriving DecidableEq, Repr

/-- The `extension_to_language` table of `base.py`, as an association list. -/
def extension_to_language : List (String × String) :=
  [(".c", "c"), (".h", "c"),
   (".c++", "cpp"), (".cc", "cpp"), (".cpp", "cpp"), (".cxx", "cpp"),
   (".hpp", "cpp"), (".hxx", "cpp"),
   (".cs", "csharp"), (".dart", "dart"), (".ex", "elixir"), (".exs", "elixir"),
   (".gleam", "gleam"), (".go", "go"), (".java", "java"),
   (".cjs", "javascript"), (".js", "javascript"), (".jsx", "javascript"),
   (".mjs", "javascript"),
   (".kt", "kotlin"), (".kts", "kotlin"),
   (".php", "php"), (".php3", "php"), (".php4", "php"), (".php5", "php"),
   (".phtml", "php"),
   (".py", "python"), (".pyw", "python"), (".rb", "ruby"), (".rbw", "ruby"),
   (".rs", "rust"), (".sc", "scala"), (".scala", "scala"), (".sol", "solidity"),
   (".svelte", "svelte"), (".swift", "swift"), (".ts", "typescript"),
   (".tsx", "typescript"), (".vue", "vue"), (".zig", "zig")]

/-- Association-list lookup (Python `dict` access). -/
def lookupA {α : Type} : List (String × α) → String → Option α
  | [], _ => none
  | (k, v) :: rest, key => if k = key then some v else lookupA rest key

/-- The union type accepted by `CKGDatabase._insert_entry`. -/
inductive Entry where
  | function (e : FunctionEntry)
  | cls (e : ClassEntry)
  | struct (e : StructEntry)
  | enum (e : EnumEntry)
  | interface (e : InterfaceEntry)
  | trait (e : TraitEntry)
  | module (e : ModuleEntry)
  | nspace (e : NamespaceEntry)
  | type_alias (e : TypeAliasEntry)
  | component (e : ComponentEntry)
  | contract (e : ContractEntry)
  | extension (e : ExtensionEntry)
  | union (e : UnionEntry)
  | generic_type (e : GenericTypeEntry)
deriving DecidableEq, Repr

/-! ## Table rows — the columns of the `CREATE TABLE` statements in
`ckg_database.py` (`SQL_LIST`), without the auto-increment id.  For the
tables whose columns coincide with the dataclass fields the dataclass is
reused as the row type; the others get their own row structure. -/

/-- Row of the `enums` table: its only kind-specific column is `enum_values`. -/
structure EnumRow where
  name : String
  file_path : String
  body : String
  enum_values : Option String
  start_line : Nat
  end_line : Nat
deriving DecidableEq, Repr

/-- Row of the `interfaces` table: only a `methods` column. -/
structure InterfaceRow where
  name : String
  file_path : String
  body : String
  methods : Option String
  start_line : Nat
  end_line : Nat
deriving DecidableEq, Repr

/-- Row of the `traits` table: only a `methods` column. -/
structure TraitRow where
  name : String
  file_path : String
  body : String
  methods : Option String
  start_line : Nat
  end_line : Nat
deriving DecidableEq, Repr

/-- Row of the `modules` table: only an `exports` column. -/
structure ModuleRow where
  name : String
  file_path : String
  body : String
  exports : Option String
  start_line : Nat
  end_line : Nat
deriving DecidableEq, Repr

/-- Row of the `components` table: `props` and `methods` columns. -/
structure ComponentRow where
  name : String
  file_path : String
  body : String
  props : Option String
  methods : Option String
  start_line : Nat
  end_line : Nat
deriving DecidableEq, Repr

/-- Row of the `contracts` table: `functions`, `events`, `modifiers`. -/
structure ContractRow where
  name : String
  file_path : String
  body : String
  functions : Option String
  events : Option String
  modifiers : Option String
  start_line : Nat
  end_line : Nat
deriving DecidableEq, Repr

/-- Row of the `unions` table: a `fields` column (filled from `variants`). -/
structure UnionRow where
  name : String
  file_path : String
  body : String
  fields : Option String
  start_line : Nat
  end_line : Nat
deriving DecidableEq, Repr

/-- The contents of the per-fingerprint SQLite database: one list of rows per
table, in physical insertion order. -/
structure Store where
  functions : List FunctionEntry := []
  classes : List ClassEntry := []
  structs : List StructEntry := []
  enums : List EnumRow := []
  interfaces : List InterfaceRow := []
  traits : List TraitRow := []
  modules : List ModuleRow := []
  namespaces : List NamespaceEntry := []
  type_aliases : List TypeAliasEntry := []
  components : List ComponentRow := []
  contracts : List ContractRow := []
  extensions : List ExtensionEntry := []
  unions : List UnionRow := []
  generic_types : List GenericTypeEntry := []
deriving DecidableEq, Repr

/-- The empty database, as created by running the `SQL_LIST` DDL. -/
def emptyStore : Store := {}

/-- The SQL statements the CKG code hands to the SQLite connection: one
INSERT per table (with the column/value lists of the `_insert_*` methods)
and the two SELECTs of `query_function` and `query_class`. -/
inductive DbStmt where
  | insert_function (e : FunctionEntry)
  | insert_class (e : ClassEntry)
  | insert_struct (e : StructEntry)
  | insert_enum (e : EnumEntry)
  | insert_interface (e : InterfaceEntry)
  | insert_trait (e : TraitEntry)
  | insert_module (e : ModuleEntry)
  | insert_namespace (e : NamespaceEntry)
  | insert_type_alias (e : TypeAliasEntry)
  | insert_component (e : ComponentEntry)
  | insert_contract (e : ContractEntry)
  | insert_extension (e : ExtensionEntry)
  | insert_union (e : UnionEntry)
  | insert_generic_type (e : GenericTypeEntry)
  | select_functions_by_name (name : String)
  | select_classes_by_name (name : String)
deriving DecidableEq, Repr

/-- SQLite semantics of one statement on the table contents: an INSERT
appends the row built from the statement's value list to its table, a
SELECT reads and changes nothing. -/
def DbStmt.exec (db : Store) : DbStmt → Store
  | .insert_function e => { db with functions := db.functions ++ [e] }
  | .insert_class e => { db with classes := db.classes ++ [e] }
  | .insert_struct e => { db with structs := db.structs ++ [e] }
  | .insert_enum e =>
      { db with enums := db.enums ++
          [{ name := e.name, file_path := e.file_path, body := e.body,
             enum_values := e.variants, start_line := e.start_line,
             end_line := e.end_line }] }
  | .insert_interface e =>
      { db with interfaces := db.interfaces ++
          [{ name := e.name, file_path := e.file_path, body := e.body,
             methods := e.methods, start_line := e.start_line,
             end_line := e.end_line }] }
  | .insert_trait e =>
      { db with traits := db.traits ++
          [{ name := e.name, file_path := e.file_path, body := e.body,
             methods := e.methods, start_line := e.start_line,
             end_line := e.end_line }] }
  | .insert_module e =>
      { db with modules := db.modules ++
          [{ name := e.name, file_path := e.file_path, body := e.body,
             exports := e.exports, start_line := e.start_line,
             end_line := e.end_line }] }
  | .insert_namespace e => { db with namespaces := db.namespaces ++ [e] }
  | .insert_type_alias e => { db with type_aliases := db.type_aliases ++ [e] }
  | .insert_component e =>
      { db with components := db.components ++
          [{ name := e.name, file_path := e.file_path, body := e.body,
             props := e.props, methods := e.methods,
             start_line := e.start_line, end_line := e.end_line }] }
  | .insert_contract e =>
      { db with contracts := db.contracts ++
          [{ name := e.name, file_path := e.file_path, body := e.body,
             functions := e.functions, events := e.events,
             modifiers := e.modifiers, start_line := e.start_line,
             end_line := e.end_line }] }
  | .insert_extension e => { db with extensions := db.extensions ++ [e] }
  | .insert_union e =>
      { db with unions := db.unions ++
          [{ name := e.name, file_path := e.file_path, body := e.body,
             fields := e.variants, start_line := e.start_line,
             end_line := e.end_line }] }
  | .insert_generic_type e => { db with generic_types := db.generic_types ++ [e] }
  | .select_functions_by_name _ => db
  | .select_classes_by_name _ => db

/-- The rows returned by `SELECT ... FROM functions WHERE name = ?`. -/
def select_functions_rows (db : Store) (name : String) : List FunctionEntry :=
  db.functions.filter (fun r => r.name == name)

/-- The rows returned by `SELECT ... FROM classes WHERE name = ?`. -/
def select_classes_rows (db : Store) (name : String) : List ClassEntry :=
  db.classes.filter (fun r => r.name == name)

/-- Method `CKGDatabase._insert_entry`: dispatch on the dataclass to the matching
table's INSERT, then commit. -/
def insert_entry (db : Store) : Entry → Store
  | .function e => DbStmt.exec db (.insert_function e)
  | .cls e => DbStmt.exec db (.insert_class e)
  | .struct e => DbStmt.exec db (.insert_struct e)
  | .enum e => DbStmt.exec db (.insert_enum e)
  | .interface e => DbStmt.exec db (.insert_interface e)
  | .trait e => DbStmt.exec db (.insert_trait e)
  | .module e => DbStmt.exec db (.insert_module e)
  | .nspace e => DbStmt.exec db (.insert_namespace e)
  | .type_alias e => DbStmt.exec db (.insert_type_alias e)
  | .component e => DbStmt.exec db (.insert_component e)
  | .contract e => DbStmt.exec db (.insert_contract e)
  | .extension e => DbStmt.exec db (.insert_extension e)
  | .union e => DbStmt.exec db (.insert_union e)
  | .generic_type e => DbStmt.exec db (.insert_generic_type e)

/-- The `entry_type` argument of `CKGDatabase.query_function`. -/
inductive EntryType where
  | function
  | class_method
deriving DecidableEq, Repr

/-- Method `CKGDatabase.query_function`: one SELECT by name on `functions`, then a
loop keeping, for `entry_type = "function"`, the records whose
`parent_class` (column index 6) is NULL, and for `"class_method"` those
whose `parent_class` is not NULL. -/
def query_function (db : Store) (identifier : String) (entry_type : EntryType) :
    List FunctionEntry :=
  let records := select_functions_rows db identifier
  match entry_type with
  | .function => records.filter (fun r => r.parent_class == none)
  | .class_method => records.filter (fun r => r.parent_class != none)

/-- The store state after the single SELECT issued by `query_function`. -/
def query_function_post (db : Store) (identifier : String) : Store :=
  DbStmt.exec db (.select_functions_by_name identifier)

/-- Method `CKGDatabase.query_class`: one SELECT by name on `classes`, every
record rebuilt into a `ClassEntry`. -/
def query_class (db : Store) (identifier : String) : List ClassEntry :=
  select_classes_rows db identifier

/-- The store state after the single SELECT issued by `query_class`. -/
def query_class_post (db : Store) (identifier : String) : Store :=
  DbStmt.exec db (.select_classes_by_name identifier)

/-! ## Python visitor — `trae_agent/tools/ckg/parsers/python_parser.py`

A tree-sitter node carries a structural tag (`node.type`), the raw source
text of its span (`node.text`), its zero-based start and end rows
(`node.start_point[0]`, `node.end_point[0]`) and its children, each child
optionally reachable under a field name (`child_by_field_name`). -/

mutual
inductive PyNode where
  | mk (ty : String) (text : String) (startRow : Nat) (endRow : Nat)
      (children : PyChildren)
inductive PyChildren where
  | nil
  | cons (fieldName : Option String) (child : PyNode) (rest : PyChildren)
end

/-- Accessor `node.type`. -/
def PyNode.ty : PyNode → String
  | .mk t _ _ _ _ => t

/-- Accessor `node.text.decode()`. -/
def PyNode.text : PyNode → String
  | .mk _ x _ _ _ => x

/-- Accessor `node.start_point[0]` (zero-based row). -/
def PyNode.startRow : PyNode → Nat
  | .mk _ _ r _ _ => r

/-- Accessor `node.end_point[0]` (zero-based row). -/
def PyNode.endRow : PyNode → Nat
  | .mk _ _ _ r _ => r

/-- Accessor `node.children`. -/
def PyNode.children : PyNode → PyChildren
  | .mk _ _ _ _ c => c

/-- First child reachable under a field name. -/
def childByField : PyChildren → String → Option PyNode
  | .nil, _ => none
  | .cons f c rest, fieldName =>
      if f == some fieldName then some c else childByField rest fieldName

/-- Accessor `node.child_by_field_name(f)`. -/
def PyNode.child_by_field_name (n : PyNode) (f : String) : Option PyNode :=
  childByField n.children f

/-- The parent-assignment logic of `recursive_visit_python` (lines 53-66):
with both an ambient class and an ambient function, the entry becomes a
nested function of the ambient function when the function's line range is
contained in the class's line range, and a method of the class otherwise;
with only one ambient parent that parent is taken. -/
def pythonFunctionParents (entry : FunctionEntry) (parent_class : Option ClassEntry)
    (parent_function : Option FunctionEntry) : FunctionEntry :=
  match parent_function, parent_class with
  | some pf, some pc =>
      if pf.start_line ≥ pc.start_line && pf.end_line ≤ pc.end_line then
        { entry with parent_function := some pf.name }
      else
        { entry with parent_class := some pc.name }
  | some pf, none => { entry with parent_function := some pf.name }
  | none, some pc => { entry with parent_class := some pc.name }
  | none, none => entry

/-- The `FunctionEntry` emitted for a `function_definition` node whose
`name` field is `function_name_node`. -/
def pythonFunctionEntry (function_name_node node : PyNode) (file_path : String)
    (parent_class : Option ClassEntry) (parent_function : Option FunctionEntry) :
    FunctionEntry :=
  pythonFunctionParents
    { name := function_name_node.text, file_path := file_path, body := node.text,
      start_line := node.startRow + 1, end_line := node.endRow + 1 }
    parent_class parent_function

/-- The methods/fields scan over a `class_definition` body (lines 88-123):
accumulates the `- name(params) -> ret` method bullet list and the
`- target` field bullet list. -/
def pythonClassInfo : PyChildren → String × String → String × String
  | .nil, acc => acc
  | .cons _ child rest, acc =>
      let function_definition_node : Option PyNode :=
        if child.ty == "decorated_definition" then
          child.child_by_field_name "definition"
        else if child.ty == "function_definition" then some child
        else none
      let acc :=
        match function_definition_node with
        | some fdn =>
            match fdn.child_by_field_name "name" with
            | some method_name_node =>
                let info := method_name_node.text
                let info :=
                  match fdn.child_by_field_name "parameters" with
                  | some p => info ++ p.text
                  | none => info
                let info :=
                  match child.child_by_field_name "return_type" with
                  | some r => info ++ " -> " ++ r.text
                  | none => info
                (acc.1 ++ "- " ++ info ++ "\n", acc.2)
            | none => acc
        | none =>
            if child.ty == "assignment" then
              match child.child_by_field_name "left" with
              | some target_node => (acc.1, acc.2 ++ "- " ++ target_node.text ++ "\n")
              | none => acc
            else acc
      pythonClassInfo rest acc

/-- The loop of the `import_statement` branch (lines 131-143): one
`ModuleEntry` per `dotted_name` child. -/
def pythonImportModules (file_path text : String) (startRow endRow : Nat) :
    Store → PyChildren → Store
  | db, .nil => db
  | db, .cons _ child rest =>
      let db :=
        if child.ty == "dotted_name" then
          insert_entry db (.module
            { name := child.text, file_path := file_path, body := text,
              start_line := startRow + 1, end_line := endRow + 1 })
        else db
      pythonImportModules file_path text startRow endRow db rest

mutual

/-- Visitor `recursive_visit_python`: recognizes function definitions, class
definitions and imports, inserts the matching entries, updates the ambient
parents, and recurses into every child. -/
def recursive_visit_python (db : Store) (node : PyNode) (file_path : String)
    (parent_class : Option ClassEntry) (parent_function : Option FunctionEntry)
    (parent_module : Option ModuleEntry) : Store :=
  match node with
  | n@(.mk ty text startRow endRow children) =>
    if ty == "function_definition" then
      match childByField children "name" with
      | some function_name_node =>
          let function_entry :=
            pythonFunctionEntry function_name_node n file_path parent_class
              parent_function
          let db := insert_entry db (.function function_entry)
          visit_python_children db children file_path parent_class
            (some function_entry) parent_module
      | none =>
          visit_python_children db children file_path parent_class parent_function
            parent_module
    else if ty == "class_definition" then
      match childByField children "name" with
      | some class_name_node =>
          let info :=
            match childByField children "body" with
            | some class_body_node => pythonClassInfo class_body_node.children ("", "")
            | none => ("", "")
          let class_methods := info.1
          let class_fields := info.2
          let class_entry : ClassEntry :=
            { name := class_name_node.text, file_path := file_path, body := text,
              start_line := startRow + 1, end_line := endRow + 1,
              fields := if class_fields != "" then some (strTrim class_fields) else none,
              methods := if class_methods != "" then some (strTrim class_methods) else none }
          let db := insert_entry db (.cls class_entry)
          visit_python_children db children file_path (some class_entry)
            parent_function parent_module
      | none =>
          visit_python_children db children file_path parent_class parent_function
            parent_module
    else if ty == "import_statement" then
      let db := pythonImportModules file_path text startRow endRow db children
      visit_python_children db children file_path parent_class parent_function
        parent_module
    else if ty == "import_from_statement" then
      let db :=
        match childByField children "module_name" with
        | some module_name_node =>
            insert_entry db (.module
              { name := module_name_node.text, file_path := file_path, body := text,
                start_line := startRow + 1, end_line := endRow + 1 })
        | none => db
      visit_python_children db children file_path parent_class parent_function
        parent_module
    else
      visit_python_children db children file_path parent_class parent_function
        parent_module

/-- The recursion of `recursive_visit_python` into every child node. -/
def visit_python_children (db : Store) (cs : PyChildren) (file_path : String)
    (parent_class : Option ClassEntry) (parent_function : Option FunctionEntry)
    (parent_module : Option ModuleEntry) : Store :=
  match cs with
  | .nil => db
  | .cons _ child rest =>
      let db := recursive_visit_python db child file_path parent_class
        parent_function parent_module
      visit_python_children db rest file_path parent_class parent_function
        parent_module

end

/-! ## Directory walk and build driver — `CKGDatabase._construct_ckg`

A walked filesystem object carries what the driver reads of it: absolute
posix path, basename, suffix, whether it is a regular file, and its stat
metadata.  The behaviour of parsing and visiting the file — common to the
twenty language visitors, whose traversals may raise — is abstracted as
the list of entries the visitor inserts before a possible exception. -/

structure WalkFile where
  path : String
  name : String
  suffix : String
  isFile : Bool
  mtime : Nat
  size : Nat
  entries : List Entry
  failure : Option String
deriving Repr

/-- The per-file filter of `_construct_ckg` (lines 384-394): regular file,
basename not hidden, no hidden path segment, known extension. -/
def ckgConsiders (f : WalkFile) : Bool :=
  f.isFile && !strStartsWith f.name "." && !strContainsSub f.path "/." &&
    (lookupA extension_to_language f.suffix).isSome

/-- Inserting every entry a visitor emits, in order. -/
def insertAll (db : Store) (es : List Entry) : Store :=
  es.foldl insert_entry db

/-- Method `CKGDatabase._construct_ckg`: walk the files in glob order; for each
file passing the filter, run the language visitor; the visitor's
exceptions are not caught, so the first failing traversal aborts the walk
with the entries inserted so far committed. -/
def construct_ckg (db : Store) : List WalkFile → Store × Option String
  | [] => (db, none)
  | f :: rest =>
      if ckgConsiders f then
        let db := insertAll db f.entries
        match f.failure with
        | none => construct_ckg db rest
        | some e => (db, some e)
      else construct_ckg db rest

/-! ## Snapshot fingerprinting — `ckg_database.py` lines 72-152

`subprocess.run(...)` without `check=True` either raises
(`FileNotFoundError`, `TimeoutExpired`) or returns a completed process; it
never raises `CalledProcessError`.  The `except` clauses of
`is_git_repository` and `get_git_status_hash` catch exactly
`CalledProcessError`, `FileNotFoundError` and `TimeoutExpired`.  The MD5
hex digest is passed in as `md5hex`. -/

inductive RunExc where
  | calledProcessError
  | fileNotFoundError
  | timeoutExpired
deriving DecidableEq, Repr

/-- What `subprocess.run` returns when it does not raise. -/
structure CompletedProcess where
  returncode : Int
  stdout : String
deriving DecidableEq, Repr

/-- The outcomes of the three git probes run against a directory. -/
structure GitProbes where
  revParseIsInsideWorkTree : Except RunExc CompletedProcess
  statusPorcelain : Except RunExc CompletedProcess
  revParseHead : Except RunExc CompletedProcess
deriving Repr

/-- Probe `is_git_repository`: `git rev-parse --is-inside-work-tree` succeeded
with exit code 0 and stdout `true`; any caught exception gives `False`. -/
def is_git_repository (probes : GitProbes) : Bool :=
  match probes.revParseIsInsideWorkTree with
  | .ok r => r.returncode == 0 && strTrim r.stdout == "true"
  | .error _ => false

/-- The per-file filter of `get_file_metadata_hash` (lines 135-136): a
regular file whose own basename is not hidden — `pathlib`'s recursive glob
does yield files inside hidden directories, and nothing here excludes
them. -/
def metadataIncluded (f : WalkFile) : Bool :=
  f.isFile && !strStartsWith f.name "."

/-- Function `get_file_metadata_hash`: the digest input accumulated over every
regular file of the recursive glob whose basename is not hidden — name,
modification time, size. -/
def metadata_digest_input (files : List WalkFile) : String :=
  (files.filter metadataIncluded).foldl
    (fun acc f => acc ++ f.name ++ toString f.mtime ++ toString f.size) ""

/-- Function `get_file_metadata_hash` returns `metadata-<hex digest>`. -/
def get_file_metadata_hash (md5hex : String → String) (files : List WalkFile) :
    String :=
  "metadata-" ++ md5hex (metadata_digest_input files)

/-- Function `get_git_status_hash`: run `git status --porcelain` and
`git rev-parse HEAD`; if either raises a caught exception, fall back to the
metadata hash; otherwise build `git-clean-<commit>` or
`git-dirty-<commit>-<8 hex of the status output digest>` from their stdout,
whatever their exit codes were. -/
def get_git_status_hash (md5hex : String → String) (probes : GitProbes)
    (files : List WalkFile) : String :=
  match probes.statusPorcelain, probes.revParseHead with
  | .ok status_result, .ok commit_result =>
      let base_hash := strTrim commit_result.stdout
      if strTrim status_result.stdout == "" then
        "git-clean-" ++ base_hash
      else
        "git-dirty-" ++ base_hash ++ "-" ++ strTake (md5hex status_result.stdout) 8
  | _, _ => get_file_metadata_hash md5hex files

/-- Function `get_folder_snapshot_hash`: git strategy when the directory probes as a
git repository, metadata strategy otherwise. -/
def get_folder_snapshot_hash (md5hex : String → String) (probes : GitProbes)
    (files : List WalkFile) : String :=
  if is_git_repository probes then get_git_status_hash md5hex probes files
  else get_file_metadata_hash md5hex files

/-! ## Store lifecycle — `CKGDatabase.__init__`

The shared on-disk state: the `storage_info.json` mapping from codebase
path to recorded fingerprint, and one database file per fingerprint
(membership in the association list is file existence, the associated
`Store` is the file contents). -/

structure CacheFS where
  storage_info : List (String × String)
  db_files : List (String × Store)
deriving Repr

/-- Writing one key of an association list (dict update + whole-file dump). -/
def setA {α : Type} (l : List (String × α)) (key : String) (val : α) :
    List (String × α) :=
  (key, val) :: l.filter (fun p => p.1 != key)

/-- Deleting a file (`Path.unlink`). -/
def removeA {α : Type} (l : List (String × α)) (key : String) :
    List (String × α) :=
  l.filter (fun p => p.1 != key)

/-- What one `CKGDatabase(...)` construction produces: the filesystem
afterwards, the store the connection sees, whether `_construct_ckg` ran
(walk + inserts), and the exception a failing build propagates. -/
structure OpenResult where
  fs : CacheFS
  store : Store
  built : Bool
  failure : Option String
deriving Repr

/-- Constructor `CKGDatabase.__init__` for codebase `path` whose current snapshot hash
is `current_hash` and whose walk yields `files`: read the recorded hash
(empty when absent); on a hash match reuse the recorded database path,
otherwise delete the old database file, record the new hash, and point at
the new path; then reuse the database file if it exists, else create it
and run a full build. -/
def ckgdatabase_init (fs : CacheFS) (path current_hash : String)
    (files : List WalkFile) : OpenResult :=
  let existing_hash := (lookupA fs.storage_info path).getD ""
  if existing_hash == current_hash then
    match lookupA fs.db_files existing_hash with
    | some s => ⟨fs, s, false, none⟩
    | none =>
        let built := construct_ckg emptyStore files
        ⟨{ fs with db_files := setA fs.db_files existing_hash built.1 },
          built.1, true, built.2⟩
  else
    let fs := { fs with db_files := removeA fs.db_files existing_hash }
    let fs := { fs with storage_info := setA fs.storage_info path current_hash }
    match lookupA fs.db_files current_hash with
    | some s => ⟨fs, s, false, none⟩
    | none =>
        let built := construct_ckg emptyStore files
        ⟨{ fs with db_files := setA fs.db_files current_hash built.1 },
          built.1, true, built.2⟩

/-! ## Query facade — `trae_agent/tools/ckg_tool.py`

`MAX_RESPONSE_LEN` is imported there from `trae_agent/tools/run.py`, a
module not under the sources at hand; the spec describes it only as a
fixed maximum length budget, so the budget is the `maxLen` parameter
below.  Python truthiness on an optional string column (`if entry.fields:`)
is false for both `None` and the empty string. -/

def truthy : Option String → Bool
  | none => false
  | some s => s != ""

/-- Python `f"{x}"` on an optional string: `None` prints as `None`. -/
def pyStr : Option String → String
  | none => "None"
  | some s => s

/-- The shared report loop of the fifteen `_search_*` methods: append each
entry's line (and its body when `print_body`), and after each entry
truncate to the budget and stop with the clipped-marker once the
accumulated output exceeds it. -/
def search_loop {α : Type} (maxLen : Nat) (print_body : Bool) (bodyOf : α → String)
    (lineOf : α → Int → String) (total : Int) : List α → Int → String → String
  | [], _, output => output
  | e :: rest, index, output =>
      let output := output ++ lineOf e index
      let output := if print_body then output ++ bodyOf e ++ "\n\n" else output
      let index := index + 1
      if strLen output > maxLen then
        strTake output maxLen ++ "\n<response clipped> " ++
          toString (total - index + 1) ++ " more entries not shown"
      else search_loop maxLen print_body bodyOf lineOf total rest index output

/-- The `<index>. <file>:<start>-<end>` line shared by every report. -/
def entryLine (file_path : String) (start_line end_line : Nat) (index : Int) :
    String :=
  toString index ++ ". " ++ file_path ++ ":" ++ toString start_line ++ "-" ++
    toString end_line ++ "\n"

/-- Method `CKGTool._search_function`: free functions from `query_function`. -/
def search_function (db : Store) (identifier : String) (print_body : Bool)
    (maxLen : Nat) : String :=
  let entries := query_function db identifier .function
  if entries.length == 0 then "No functions named " ++ identifier ++ " found."
  else
    search_loop maxLen print_body (fun e => e.body)
      (fun e index => entryLine e.file_path e.start_line e.end_line index)
      entries.length entries 1
      ("Found " ++ toString entries.length ++ " functions named " ++ identifier ++ ":\n")

/-- Method `CKGTool._search_class`: classes from `query_class`, with conditional
Fields and Methods sections. -/
def search_class (db : Store) (identifier : String) (print_body : Bool)
    (maxLen : Nat) : String :=
  let entries := query_class db identifier
  if entries.length == 0 then "No classes named " ++ identifier ++ " found."
  else
    search_loop maxLen print_body (fun e => e.body)
      (fun e index => entryLine e.file_path e.start_line e.end_line index ++
        (if truthy e.fields then "Fields:\n" ++ pyStr e.fields ++ "\n" else "") ++
        (if truthy e.methods then "Methods:\n" ++ pyStr e.methods ++ "\n" else ""))
      entries.length entries 1
      ("Found " ++ toString entries.length ++ " classes named " ++ identifier ++ ":\n")

/-- Method `CKGTool._search_class_method`: class methods from `query_function`. -/
def search_class_method (db : Store) (identifier : String) (print_body : Bool)
    (maxLen : Nat) : String :=
  let entries := query_function db identifier .class_method
  if entries.length == 0 then "No class methods named " ++ identifier ++ " found."
  else
    search_loop maxLen print_body (fun e => e.body)
      (fun e index => toString index ++ ". " ++ e.file_path ++ ":" ++
        toString e.start_line ++ "-" ++ toString e.end_line ++ " within class " ++
        pyStr e.parent_class ++ "\n")
      entries.length entries 1
      ("Found " ++ toString entries.length ++ " class methods named " ++ identifier ++ ":\n")

/-- Method `CKGTool._search_struct`: answered from `query_class`. -/
def search_struct (db : Store) (identifier : String) (print_body : Bool)
    (maxLen : Nat) : String :=
  let entries := query_class db identifier
  if entries.length == 0 then "No structs named " ++ identifier ++ " found."
  else
    search_loop maxLen print_body (fun e => e.body)
      (fun e index => entryLine e.file_path e.start_line e.end_line index ++
        (if truthy e.fields then "Fields:\n" ++ pyStr e.fields ++ "\n" else "") ++
        (if truthy e.methods then "Methods:\n" ++ pyStr e.methods ++ "\n" else ""))
      entries.length entries 1
      ("Found " ++ toString entries.length ++ " structs named " ++ identifier ++ ":\n")

/-- Method `CKGTool._search_enum`: answered from `query_class`. -/
def search_enum (db : Store) (identifier : String) (print_body : Bool)
    (maxLen : Nat) : String :=
  let entries := query_class db identifier
  if entries.length == 0 then "No enums named " ++ identifier ++ " found."
  else
    search_loop maxLen print_body (fun e => e.body)
      (fun e index => entryLine e.file_path e.start_line e.end_line index ++
        (if truthy e.fields then "Variants:\n" ++ pyStr e.fields ++ "\n" else ""))
      entries.length entries 1
      ("Found " ++ toString entries.length ++ " enums named " ++ identifier ++ ":\n")

/-- Method `CKGTool._search_interface`: answered from `query_class`. -/
def search_interface (db : Store) (identifier : String) (print_body : Bool)
    (maxLen : Nat) : String :=
  let entries := query_class db identifier
  if entries.length == 0 then "No interfaces named " ++ identifier ++ " found."
  else
    search_loop maxLen print_body (fun e => e.body)
      (fun e index => entryLine e.file_path e.start_line e.end_line index ++
        (if truthy e.fields then "Properties:\n" ++ pyStr e.fields ++ "\n" else "") ++
        (if truthy e.methods then "Methods:\n" ++ pyStr e.methods ++ "\n" else ""))
      entries.length entries 1
      ("Found " ++ toString entries.length ++ " interfaces named " ++ identifier ++ ":\n")

/-- Method `CKGTool._search_trait`: answered from `query_class`. -/
def search_trait (db : Store) (identifier : String) (print_body : Bool)
    (maxLen : Nat) : String :=
  let entries := query_class db identifier
  if entries.length == 0 then "No traits named " ++ identifier ++ " found."
  else
    search_loop maxLen print_body (fun e => e.body)
      (fun e index => entryLine e.file_path e.start_line e.end_line index ++
        (if truthy e.fields then "Associated Types:\n" ++ pyStr e.fields ++ "\n" else "") ++
        (if truthy e.methods then "Methods:\n" ++ pyStr e.methods ++ "\n" else ""))
      entries.length entries 1
      ("Found " ++ toString entries.length ++ " traits named " ++ identifier ++ ":\n")

/-- Method `CKGTool._search_module`: answered from `query_class`. -/
def search_module (db : Store) (identifier : String) (print_body : Bool)
    (maxLen : Nat) : String :=
  let entries := query_class db identifier
  if entries.length == 0 then "No modules named " ++ identifier ++ " found."
  else
    search_loop maxLen print_body (fun e => e.body)
      (fun e index => entryLine e.file_path e.start_line e.end_line index ++
        (if truthy e.fields then "Imports:\n" ++ pyStr e.fields ++ "\n" else "") ++
        (if truthy e.methods then "Exports:\n" ++ pyStr e.methods ++ "\n" else ""))
      entries.length entries 1
      ("Found " ++ toString entries.length ++ " modules named " ++ identifier ++ ":\n")

/-- Method `CKGTool._search_namespace`: answered from `query_class`. -/
def search_namespace (db : Store) (identifier : String) (print_body : Bool)
    (maxLen : Nat) : String :=
  let entries := query_class db identifier
  if entries.length == 0 then "No namespaces named " ++ identifier ++ " found."
  else
    search_loop maxLen print_body (fun e => e.body)
      (fun e index => entryLine e.file_path e.start_line e.end_line index ++
        (if truthy e.fields then "Members:\n" ++ pyStr e.fields ++ "\n" else ""))
      entries.length entries 1
      ("Found " ++ toString entries.length ++ " namespaces named " ++ identifier ++ ":\n")

/-- Method `CKGTool._search_type_alias`: answered from `query_function`. -/
def search_type_alias (db : Store) (identifier : String) (print_body : Bool)
    (maxLen : Nat) : String :=
  let entries := query_function db identifier .function
  if entries.length == 0 then "No type aliases named " ++ identifier ++ " found."
  else
    search_loop maxLen print_body (fun e => e.body)
      (fun e index => entryLine e.file_path e.start_line e.end_line index)
      entries.length entries 1
      ("Found " ++ toString entries.length ++ " type aliases named " ++ identifier ++ ":\n")

/-- Method `CKGTool._search_component`: answered from `query_class`. -/
def search_component (db : Store) (identifier : String) (print_body : Bool)
    (maxLen : Nat) : String :=
  let entries := query_class db identifier
  if entries.length == 0 then "No components named " ++ identifier ++ " found."
  else
    search_loop maxLen print_body (fun e => e.body)
      (fun e index => entryLine e.file_path e.start_line e.end_line index ++
        (if truthy e.fields then "Props:\n" ++ pyStr e.fields ++ "\n" else "") ++
        (if truthy e.methods then "Methods:\n" ++ pyStr e.methods ++ "\n" else ""))
      entries.length entries 1
      ("Found " ++ toString entries.length ++ " components named " ++ identifier ++ ":\n")

/-- Method `CKGTool._search_contract`: answered from `query_class`. -/
def search_contract (db : Store) (identifier : String) (print_body : Bool)
    (maxLen : Nat) : String :=
  let entries := query_class db identifier
  if entries.length == 0 then "No contracts named " ++ identifier ++ " found."
  else
    search_loop maxLen print_body (fun e => e.body)
      (fun e index => entryLine e.file_path e.start_line e.end_line index ++
        (if truthy e.fields then "State Variables:\n" ++ pyStr e.fields ++ "\n" else "") ++
        (if truthy e.methods then "Functions:\n" ++ pyStr e.methods ++ "\n" else ""))
      entries.length entries 1
      ("Found " ++ toString entries.length ++ " contracts named " ++ identifier ++ ":\n")

/-- Method `CKGTool._search_extension`: answered from `query_class`. -/
def search_extension (db : Store) (identifier : String) (print_body : Bool)
    (maxLen : Nat) : String :=
  let entries := query_class db identifier
  if entries.length == 0 then "No extensions named " ++ identifier ++ " found."
  else
    search_loop maxLen print_body (fun e => e.body)
      (fun e index => entryLine e.file_path e.start_line e.end_line index ++
        (if truthy e.fields then "Extended Type:\n" ++ pyStr e.fields ++ "\n" else "") ++
        (if truthy e.methods then "Methods:\n" ++ pyStr e.methods ++ "\n" else ""))
      entries.length entries 1
      ("Found " ++ toString entries.length ++ " extensions named " ++ identifier ++ ":\n")

/-- Method `CKGTool._search_union`: answered from `query_class`. -/
def search_union (db : Store) (identifier : String) (print_body : Bool)
    (maxLen : Nat) : String :=
  let entries := query_class db identifier
  if entries.length == 0 then "No unions named " ++ identifier ++ " found."
  else
    search_loop maxLen print_body (fun e => e.body)
      (fun e index => entryLine e.file_path e.start_line e.end_line index ++
        (if truthy e.fields then "Variants:\n" ++ pyStr e.fields ++ "\n" else ""))
      entries.length entries 1
      ("Found " ++ toString entries.length ++ " unions named " ++ identifier ++ ":\n")

/-- Method `CKGTool._search_generic_type`: answered from `query_class`. -/
def search_generic_type (db : Store) (identifier : String) (print_body : Bool)
    (maxLen : Nat) : String :=
  let entries := query_class db identifier
  if entries.length == 0 then "No generic types named " ++ identifier ++ " found."
  else
    search_loop maxLen print_body (fun e => e.body)
      (fun e index => entryLine e.file_path e.start_line e.end_line index ++
        (if truthy e.fields then "Type Parameters:\n" ++ pyStr e.fields ++ "\n" else "") ++
        (if truthy e.methods then "Constraints:\n" ++ pyStr e.methods ++ "\n" else ""))
      entries.length entries 1
      ("Found " ++ toString entries.length ++ " generic types named " ++ identifier ++ ":\n")

/-- The `CKGToolCommands` list. -/
def CKGToolCommands : List String :=
  ["search_function", "search_class", "search_class_method", "search_struct",
   "search_enum", "search_interface", "search_trait", "search_module",
   "search_namespace", "search_type_alias", "search_component",
   "search_contract", "search_extension", "search_union", "search_generic_type"]

/-- The command match of `CKGTool.execute`, as a report function. -/
def searchDispatch (command : String) (db : Store) (identifier : String)
    (print_body : Bool) (maxLen : Nat) : String :=
  match command with
  | "search_function" => search_function db identifier print_body maxLen
  | "search_class" => search_class db identifier print_body maxLen
  | "search_class_method" => search_class_method db identifier print_body maxLen
  | "search_struct" => search_struct db identifier print_body maxLen
  | "search_enum" => search_enum db identifier print_body maxLen
  | "search_interface" => search_interface db identifier print_body maxLen
  | "search_trait" => search_trait db identifier print_body maxLen
  | "search_module" => search_module db identifier print_body maxLen
  | "search_namespace" => search_namespace db identifier print_body maxLen
  | "search_type_alias" => search_type_alias db identifier print_body maxLen
  | "search_component" => search_component db identifier print_body maxLen
  | "search_contract" => search_contract db identifier print_body maxLen
  | "search_extension" => search_extension db identifier print_body maxLen
  | "search_union" => search_union db identifier print_body maxLen
  | "search_generic_type" => search_generic_type db identifier print_body maxLen
  | _ => ""

/-- The database statements a search command issues: every command performs
exactly one SELECT (`query_function` for function-backed commands,
`query_class` for the rest). -/
def search_stmts (command identifier : String) : List DbStmt :=
  match command with
  | "search_function" => [.select_functions_by_name identifier]
  | "search_class_method" => [.select_functions_by_name identifier]
  | "search_type_alias" => [.select_functions_by_name identifier]
  | _ => [.select_classes_by_name identifier]

/-- Executing a statement sequence against the store. -/
def execList (db : Store) (stmts : List DbStmt) : Store :=
  stmts.foldl DbStmt.exec db

/-- The bodies of the entities a search command matches. -/
def matchedBodies (command : String) (db : Store) (identifier : String) :
    List String :=
  match command with
  | "search_function" => (query_function db identifier .function).map (fun e => e.body)
  | "search_class_method" =>
      (query_function db identifier .class_method).map (fun e => e.body)
  | "search_type_alias" => (query_function db identifier .function).map (fun e => e.body)
  | _ => (query_class db identifier).map (fun e => e.body)

/-- The tool-call arguments dictionary, restricted to the keys read. -/
structure ToolArgs where
  command : Option String := none
  path : Option String := none
  identifier : Option String := none
  print_body : Option Bool := none

/-- Result `ToolExecResult`: either an output or an error with an error code. -/
inductive ToolExecResult where
  | output (text : String)
  | error (text : String) (code : Int)
deriving DecidableEq, Repr

/-- Method `CKGTool.execute`: validate command, path and identifier, default
`print_body` to true, validate that the path exists and is a directory
(the two booleans stand for the probed filesystem facts), obtain the
database for the path (`db`), and dispatch on the command. -/
def CKGTool.execute (args : ToolArgs) (path_exists path_is_dir : Bool)
    (db : Store) (maxLen : Nat) : ToolExecResult :=
  match args.command with
  | none => .error "No command provided for the ckg tool" (-1)
  | some command =>
    match args.path with
    | none => .error "No path provided for the ckg tool" (-1)
    | some path =>
      match args.identifier with
      | none => .error "No identifier provided for the ckg tool" (-1)
      | some identifier =>
        let print_body := args.print_body.getD true
        if !path_exists then
          .error ("Codebase path " ++ path ++ " does not exist") (-1)
        else if !path_is_dir then
          .error ("Codebase path " ++ path ++ " is not a directory") (-1)
        else
          match command with
          | "search_function" =>
              .output (search_function db identifier print_body maxLen)
          | "search_class" =>
              .output (search_class db identifier print_body maxLen)
          | "search_class_method" =>
              .output (search_class_method db identifier print_body maxLen)
          | "search_struct" =>
              .output (search_struct db identifier print_body maxLen)
          | "search_enum" =>
              .output (search_enum db identifier print_body maxLen)
          | "search_interface" =>
              .output (search_interface db identifier print_body maxLen)
          | "search_trait" =>
              .output (search_trait db identifier print_body maxLen)
          | "search_module" =>
              .output (search_module db identifier print_body maxLen)
          | "search_namespace" =>
              .output (search_namespace db identifier print_body maxLen)
          | "search_type_alias" =>
              .output (search_type_alias db identifier print_body maxLen)
          | "search_component" =>
              .output (search_component db identifier print_body maxLen)
          | "search_contract" =>
              .output (search_contract db identifier print_body maxLen)
          | "search_extension" =>
              .output (search_extension db identifier print_body maxLen)
          | "search_union" =>
              .output (search_union db identifier print_body maxLen)
          | "search_generic_type" =>
              .output (search_generic_type db identifier print_body maxLen)
          | _ => .error ("Invalid command: " ++ command) (-1)

/-- The identifier matches no row of any table of the store. -/
def storeHasNoName (db : Store) (identifier : String) : Bool :=
  db.functions.all (fun r => r.name != identifier) &&
  db.classes.all (fun r => r.name != identifier) &&
  db.structs.all (fun r => r.name != identifier) &&
  db.enums.all (fun r => r.name != identifier) &&
  db.interfaces.all (fun r => r.name != identifier) &&
  db.traits.all (fun r => r.name != identifier) &&
  db.modules.all (fun r => r.name != identifier) &&
  db.namespaces.all (fun r => r.name != identifier) &&
  db.type_aliases.all (fun r => r.name != identifier) &&
  db.components.all (fun r => r.name != identifier) &&
  db.contracts.all (fun r => r.name != identifier) &&
  db.extensions.all (fun r => r.name != identifier) &&
  db.unions.all (fun r => r.name != identifier) &&
  db.generic_types.all (fun r => r.name != identifier)

/-- The pluralized kind word of each command's zero-match message. -/
def pluralKind : String → String
  | "search_function" => "functions"
  | "search_class" => "classes"
  | "search_class_method" => "class methods"
  | "search_struct" => "structs"
  | "search_enum" => "enums"
  | "search_interface" => "interfaces"
  | "search_trait" => "traits"
  | "search_module" => "modules"
  | "search_namespace" => "namespaces"
  | "search_type_alias" => "type aliases"
  | "search_component" => "components"
  | "search_contract" => "contracts"
  | "search_extension" => "extensions"
  | "search_union" => "unions"
  | "search_generic_type" => "generic types"
  | _ => ""

/-! ## Claim fixtures -/

def c3_record : FunctionEntry :=
  { name := "n", file_path := "/a/f.py", body := "def n(): pass", start_line := 3,
    end_line := 6, parent_function := some "g", parent_class := none }

def c1_struct_row : StructEntry :=
  { name := "S", file_path := "/c/a.c", body := "struct S;", start_line := 1,
    end_line := 1 }

def c1_class_row : ClassEntry :=
  { name := "S", file_path := "/c/b.py", body := "class S: pass", start_line := 1,
    end_line := 1 }

def c1_alias_row : TypeAliasEntry :=
  { name := "T", file_path := "/c/t.ts", body := "type T = number;", start_line := 2,
    end_line := 2 }

def c5_probes : GitProbes :=
  { revParseIsInsideWorkTree := .ok { returncode := 0, stdout := "true" },
    statusPorcelain := .ok { returncode := 0, stdout := "" },
    revParseHead := .ok { returncode := 128, stdout := "HEAD" } }

def c2_bad : WalkFile :=
  { path := "/c/bad.py", name := "bad.py", suffix := ".py", isFile := true,
    mtime := 0, size := 1, entries := [], failure := some "boom" }

def c2_good_fn : FunctionEntry :=
  { name := "ok", file_path := "/c/good.py", body := "def ok(): pass",
    start_line := 1, end_line := 1 }

def c2_good : WalkFile :=
  { path := "/c/good.py", name := "good.py", suffix := ".py", isFile := true,
    mtime := 0, size := 1, entries := [Entry.function c2_good_fn], failure := none }


theorem strData_append (a b : String) : (a ++ b).data = a.data ++ b.data := by
  cases a; cases b; rfl

theorem strLen_append (a b : String) : strLen (a ++ b) = strLen a + strLen b := by
  simp [strLen, strData_append]

theorem strLen_strTake (s : String) (n : Nat) :
    strLen (strTake s n) = min n (strLen s) := by
  simp [strLen, strTake]

theorem listStartsWith_append (a b : List Char) : listStartsWith (a ++ b) a = true := by
  induction a with
  | nil => simp [listStartsWith]
  | cons c cs ih => simp [listStartsWith, ih]

theorem strStartsWith_append (a b : String) : strStartsWith (a ++ b) a = true := by
  unfold strStartsWith
  rw [strData_append]
  exact listStartsWith_append _ _

theorem substrOf_self (s : String) : SubstrOf s s :=
  ⟨[], [], by simp⟩

theorem substrOf_append_left (s a b : String) (h : SubstrOf s a) : SubstrOf s (a ++ b) := by
  obtain ⟨p, q, hpq⟩ := h
  exact ⟨p, q ++ b.data, by simp [strData_append, hpq]⟩

theorem substrOf_append_right (s a b : String) (h : SubstrOf s b) : SubstrOf s (a ++ b) := by
  obtain ⟨p, q, hpq⟩ := h
  exact ⟨a.data ++ p, q, by simp [strData_append, hpq]⟩

theorem substrOf_len_le (s t : String) (h : SubstrOf s t) : strLen s ≤ strLen t := by
  obtain ⟨p, q, hpq⟩ := h
  simp only [strLen, hpq, List.length_append]
  omega


def c10_hidden_fn : FunctionEntry :=
  { name := "hidden_helper", file_path := "/repo/.venv/lib/foo.py",
    body := "def hidden_helper(): pass", start_line := 1, end_line := 1 }

def c10_hidden : WalkFile :=
  { path := "/repo/.venv/lib/foo.py", name := "foo.py", suffix := ".py",
    isFile := true, mtime := 100, size := 7,
    entries := [Entry.function c10_hidden_fn], failure := none }

def c10_top : WalkFile :=
  { path := "/repo/a.py", name := "a.py", suffix := ".py", isFile := true,
    mtime := 50, size := 3, entries := [], failure := none }

def c10_files : List WalkFile := [c10_top, c10_hidden]

def c10_hidden2 : WalkFile := { c10_hidden with mtime := 101 }

def c10_files2 : List WalkFile := [c10_top, c10_hidden2]

def c4_name_node : PyNode := .mk "identifier" "inner" 5 5 .nil

def c4_fn_node : PyNode :=
  .mk "function_definition" "def inner(): pass" 5 6
    (.cons (some "name") c4_name_node .nil)

def c4_class : ClassEntry :=
  { name := "K", file_path := "f.py", body := "class K: ...", start_line := 1,
    end_line := 10 }

def c4_fun_outside : FunctionEntry :=
  { name := "g", file_path := "f.py", body := "def g(): ...", start_line := 20,
    end_line := 30 }

/-- Replacing the `body` column of every function and class row —
the tables the facade queries — leaving every other column intact. -/
def mapStoreBodies (f : FunctionEntry → String) (g : ClassEntry → String)
    (db : Store) : Store :=
  { db with
    functions := db.functions.map (fun e => { e with body := f e }),
    classes := db.classes.map (fun e => { e with body := g e }) }

def c8_e1 : FunctionEntry :=
  { name := "f", file_path := "/a/1.py", body := "def f(): return 1",
    start_line := 1, end_line := 1 }

def c8_e2 : FunctionEntry :=
  { name := "f", file_path := "/a/2.py",
    body := "............................................................",
    start_line := 9, end_line := 9 }

def c8_db : Store := { functions := [c8_e1, c8_e2] }

/-! ## Claims -/

/-- C3 counterexample: a stored function record named `n` nested inside a
function `g` (`parent_function` set, `parent_class` NULL) is returned by
`query_function(n, "function")` although it does have a parent, and is not
returned by `query_function(n, "class_method")` although it has some
parent — so the `"function"` results are not "the records with no parent
at all" and the `"class_method"` results are not "the records with some
parent". -/
theorem c3_counterexample :
    query_function { functions := [c3_record] } "n" EntryType.function = [c3_record]
    ∧ c3_record.parent_function ≠ none
    ∧ query_function { functions := [c3_record] } "n" EntryType.class_method = [] := by
  refine ⟨by decide, by decide, by decide⟩

/-- C3 (amended): `query_function(identifier, "function")` returns exactly
the records named `identifier` whose `parent_class` is NULL — regardless
of `parent_function` — and `query_function(identifier, "class_method")`
exactly those whose `parent_class` is non-NULL; the two result lists
partition the records named `identifier`. -/
theorem c3_query_function_amended (db : Store) (identifier : String) :
    query_function db identifier EntryType.function
      = db.functions.filter (fun r => r.name == identifier && r.parent_class == none)
    ∧ query_function db identifier EntryType.class_method
      = db.functions.filter
          (fun r => r.name == identifier && !(r.parent_class == none))
    ∧ List.Perm
        (query_function db identifier EntryType.function
          ++ query_function db identifier EntryType.class_method)
        (select_functions_rows db identifier) := by
  refine ⟨?_, ?_, ?_⟩
  · simp only [query_function, select_functions_rows, List.filter_filter]
    exact List.filter_congr fun a _ => Bool.and_comm _ _
  · simp only [query_function, select_functions_rows, List.filter_filter]
    exact List.filter_congr fun a _ => Bool.and_comm _ _
  · exact List.filter_append_perm _ _

/-- C9: point queries are read-only — the store state after the single
SELECT issued by `query_function` or `query_class` is the starting store,
and so is the state after the statement sequence any `search_*` command
issues. -/
theorem c9_queries_read_only (db : Store) (fid cid sid command : String) :
    query_function_post db fid = db ∧ query_class_post db cid = db
    ∧ execList db (search_stmts command sid) = db := by
  refine ⟨rfl, rfl, ?_⟩
  unfold search_stmts
  split <;> rfl

/-- C1: the facade does not query the table of the command's entity kind.
On a store whose `structs` table holds a struct named `S` (and whose
`classes` table is empty), `search_struct` reports that no structs named
`S` exist, because `_search_struct` calls `query_class`; on a store whose
`classes` table holds a class named `S`, `search_struct` and `search_enum`
report it as a found struct resp. enum; and `search_type_alias` answers
from the `functions` table, ignoring a stored type alias named `T`. -/
theorem c1_search_queries_wrong_table :
    search_struct { structs := [c1_struct_row] } "S" true 1000
      = "No structs named S found."
    ∧ ({ structs := [c1_struct_row] } : Store).structs.any (fun r => r.name == "S")
      = true
    ∧ search_struct { classes := [c1_class_row] } "S" false 1000
      = "Found 1 structs named S:\n1. /c/b.py:1-1\n"
    ∧ search_enum { classes := [c1_class_row] } "S" false 1000
      = "Found 1 enums named S:\n1. /c/b.py:1-1\n"
    ∧ search_type_alias { type_aliases := [c1_alias_row] } "T" true 1000
      = "No type aliases named T found." := by
  refine ⟨by decide, by decide, by decide, by decide, by decide⟩

/-- C5 counterexample: in a git work tree with no commits yet,
`git rev-parse --is-inside-work-tree` succeeds, `git status --porcelain`
succeeds with empty output, and `git rev-parse HEAD` exits with code 128
printing `HEAD` — a failed probe in the claim's sense.  Because
`subprocess.run` is called without `check=True`, no exception is raised,
so `get_git_status_hash` does not fall back to the metadata strategy: the
fingerprint is `git-clean-HEAD`, not a `metadata-` string. -/
theorem c5_counterexample :
    get_folder_snapshot_hash (fun s => s) c5_probes [] = "git-clean-HEAD"
    ∧ strStartsWith (get_folder_snapshot_hash (fun s => s) c5_probes [])
        "metadata-" = false := by
  refine ⟨by decide, by decide⟩

/-- C5 (amended): the fallback fires exactly on a raised probe exception —
whenever `git status --porcelain` or `git rev-parse HEAD` raises (tool
missing, timeout), `get_git_status_hash` returns the metadata fingerprint
`metadata-<digest>` and no error reaches the caller; a probe that merely
exits non-zero does not raise, and its stdout is used to build a `git-*`
fingerprint. -/
theorem c5_fallback_on_raise (md5hex : String → String) (probes : GitProbes)
    (files : List WalkFile)
    (h : (∃ e, probes.statusPorcelain = .error e)
        ∨ (∃ e, probes.revParseHead = .error e)) :
    get_git_status_hash md5hex probes files
      = "metadata-" ++ md5hex (metadata_digest_input files)
    ∧ strStartsWith (get_git_status_hash md5hex probes files) "metadata-" = true := by
  have hfb : get_git_status_hash md5hex probes files
      = get_file_metadata_hash md5hex files := by
    unfold get_git_status_hash
    rcases h with ⟨e, he⟩ | ⟨e, he⟩
    · rw [he]
    · rw [he]
      cases hs : probes.statusPorcelain <;> rfl
  refine ⟨hfb, ?_⟩
  rw [hfb]
  unfold get_file_metadata_hash
  exact strStartsWith_append _ _

/-- C5 witness: a timed-out status probe concretely falls back to the
metadata fingerprint. -/
theorem c5_fallback_on_raise_witness :
    ((∃ e, (GitProbes.mk (.ok { returncode := 0, stdout := "true" })
        (.error .timeoutExpired) (.ok { returncode := 0, stdout := "abc" })).statusPorcelain
          = .error e)
      ∨ (∃ e, (GitProbes.mk (.ok { returncode := 0, stdout := "true" })
        (.error .timeoutExpired)
        (.ok { returncode := 0, stdout := "abc" })).revParseHead = .error e))
    ∧ (get_git_status_hash (fun s => s)
        (GitProbes.mk (.ok { returncode := 0, stdout := "true" })
          (.error .timeoutExpired) (.ok { returncode := 0, stdout := "abc" })) []
        = "metadata-" ++ (fun s : String => s) (metadata_digest_input [])
      ∧ strStartsWith (get_git_status_hash (fun s => s)
          (GitProbes.mk (.ok { returncode := 0, stdout := "true" })
            (.error .timeoutExpired) (.ok { returncode := 0, stdout := "abc" })) [])
          "metadata-" = true) :=
  ⟨Or.inl ⟨.timeoutExpired, rfl⟩,
    c5_fallback_on_raise (fun s => s)
      (GitProbes.mk (.ok { returncode := 0, stdout := "true" })
        (.error .timeoutExpired) (.ok { returncode := 0, stdout := "abc" })) []
      (Or.inl ⟨.timeoutExpired, rfl⟩)⟩

/-- C2 counterexample: on a walk of two known-extension files where the
first file's traversal raises `boom`, `_construct_ckg` propagates the
exception instead of catching it — the build aborts, and the second
file's function entity is never inserted. -/
theorem c2_counterexample :
    construct_ckg emptyStore [c2_bad, c2_good] = (emptyStore, some "boom")
    ∧ (construct_ckg emptyStore [c2_bad, c2_good]).1.functions = [] :=
  ⟨by decide, by decide⟩

/-- C2 (amended): the driver catches nothing at file granularity — the
first visited file whose traversal raises aborts the whole build with
that exception, and the files after it are never indexed: the build of
`pre ++ f :: post` equals the build of `pre ++ [f]` whatever `post` is. -/
theorem c2_first_failure_aborts (db : Store) (pre post : List WalkFile)
    (f : WalkFile) (err : String)
    (hpre : ∀ g ∈ pre, g.failure = none)
    (hcons : ckgConsiders f = true) (hfail : f.failure = some err) :
    (construct_ckg db (pre ++ f :: post)).2 = some err
    ∧ construct_ckg db (pre ++ f :: post) = construct_ckg db (pre ++ [f]) := by
  induction pre generalizing db with
  | nil =>
      refine ⟨?_, ?_⟩ <;> simp [construct_ckg, hcons, hfail]
  | cons g rest ih =>
      have hg : g.failure = none := hpre g (by simp)
      have hrest : ∀ x ∈ rest, x.failure = none := fun x hx => hpre x (by simp [hx])
      simp only [List.cons_append, construct_ckg]
      by_cases hcg : ckgConsiders g
      · simp only [hcg, if_true, hg]
        exact ih (insertAll db g.entries) hrest
      · simp only [hcg, if_false]
        exact ih db hrest

/-- C2 witness: with no preceding files, a failing `bad.py` followed by a
healthy `good.py` aborts at `bad.py`. -/
theorem c2_first_failure_aborts_witness :
    (∀ g ∈ ([] : List WalkFile), g.failure = none)
    ∧ ckgConsiders c2_bad = true ∧ c2_bad.failure = some "boom"
    ∧ ((construct_ckg emptyStore ([] ++ c2_bad :: [c2_good])).2 = some "boom"
      ∧ construct_ckg emptyStore ([] ++ c2_bad :: [c2_good])
          = construct_ckg emptyStore ([] ++ [c2_bad])) :=
  ⟨by simp, by decide, by decide,
    c2_first_failure_aborts emptyStore [] [c2_good] c2_bad "boom"
      (by simp) (by decide) (by decide)⟩

theorem lookupA_setA_self {α : Type} (l : List (String × α)) (k : String) (v : α) :
    lookupA (setA l k v) k = some v := by
  simp [setA, lookupA]

/-- After any `CKGDatabase.__init__`, the storage-info file records the
current hash for the codebase path and the database file for that hash
exists, holding exactly the store the connection sees. -/
theorem init_post (fs : CacheFS) (path h : String) (files : List WalkFile) :
    (lookupA (ckgdatabase_init fs path h files).fs.storage_info path).getD "" = h
    ∧ lookupA (ckgdatabase_init fs path h files).fs.db_files h
        = some (ckgdatabase_init fs path h files).store := by
  simp only [ckgdatabase_init]
  by_cases hcase : (lookupA fs.storage_info path).getD "" = h
  · simp only [hcase, beq_self_eq_true, if_true]
    cases hdb : lookupA fs.db_files h with
    | some s => simp [hdb, hcase]
    | none => simp [hdb, hcase, lookupA_setA_self]
  · have hbeq : ((lookupA fs.storage_info path).getD "" == h) = false := by
      simp [hcase]
    simp only [hbeq, Bool.false_eq_true, if_false]
    cases hdb : lookupA (removeA fs.db_files ((lookupA fs.storage_info path).getD ""))
        h with
    | some s => simp [hdb, lookupA_setA_self]
    | none => simp [hdb, lookupA_setA_self]

/-- When the recorded fingerprint equals the current one and the database
file for it exists, `CKGDatabase.__init__` reuses it: no deletion, no
storage-info write, no build — the filesystem is untouched and the
connection sees the stored contents. -/
theorem init_reuses (fs : CacheFS) (path h : String) (files : List WalkFile)
    (s : Store)
    (hrec : (lookupA fs.storage_info path).getD "" = h)
    (hdb : lookupA fs.db_files h = some s) :
    ckgdatabase_init fs path h files = ⟨fs, s, false, none⟩ := by
  simp only [ckgdatabase_init]
  simp [hrec, hdb]

/-- C6: opening the store a second time for an unchanged fingerprint
reuses the database produced by the first open — `_construct_ckg` does
not run again (`built = false`), the filesystem is unchanged, the
connection sees the same store, and every `query_function`/`query_class`
answer is the same as against the first store. -/
theorem c6_second_open_reuses (fs : CacheFS) (path current_hash : String)
    (files files2 : List WalkFile) :
    ckgdatabase_init (ckgdatabase_init fs path current_hash files).fs path
        current_hash files2
      = ⟨(ckgdatabase_init fs path current_hash files).fs,
         (ckgdatabase_init fs path current_hash files).store, false, none⟩
    ∧ (∀ idf ty,
        query_function (ckgdatabase_init (ckgdatabase_init fs path current_hash
            files).fs path current_hash files2).store idf ty
          = query_function (ckgdatabase_init fs path current_hash files).store idf ty)
    ∧ (∀ idc,
        query_class (ckgdatabase_init (ckgdatabase_init fs path current_hash
            files).fs path current_hash files2).store idc
          = query_class (ckgdatabase_init fs path current_hash files).store idc) := by
  obtain ⟨h1, h2⟩ := init_post fs path current_hash files
  have hmain := init_reuses (ckgdatabase_init fs path current_hash files).fs path
    current_hash files2 (ckgdatabase_init fs path current_hash files).store h1 h2
  exact ⟨hmain, fun idf ty => by rw [hmain], fun idc => by rw [hmain]⟩

theorem no_name_no_rows (db : Store) (identifier : String)
    (h : storeHasNoName db identifier = true) :
    select_functions_rows db identifier = [] ∧
    select_classes_rows db identifier = [] := by
  simp only [storeHasNoName, Bool.and_eq_true, List.all_eq_true] at h
  obtain ⟨⟨⟨⟨⟨⟨⟨⟨⟨⟨⟨⟨⟨hf, hc⟩, _⟩, _⟩, _⟩, _⟩, _⟩, _⟩, _⟩, _⟩, _⟩, _⟩, _⟩, _⟩ := h
  constructor
  · simp only [select_functions_rows, List.filter_eq_nil_iff]
    intro r hr
    simpa using hf r hr
  · simp only [select_classes_rows, List.filter_eq_nil_iff]
    intro r hr
    simpa using hc r hr

/-- C7: for every valid search command and an identifier matching nothing
in the store, `execute` answers with the successful output
`No <kind>s named <identifier> found.` — the pluralized kind word, carried
as an output rather than an error, and nothing else in the report. -/
theorem c7_zero_matches_message (command path identifier : String)
    (pb : Option Bool) (db : Store) (maxLen : Nat)
    (hcmd : command ∈ CKGToolCommands)
    (hno : storeHasNoName db identifier = true) :
    CKGTool.execute ⟨some command, some path, some identifier, pb⟩ true true db
        maxLen
      = ToolExecResult.output
          ("No " ++ pluralKind command ++ " named " ++ identifier ++ " found.") := by
  obtain ⟨hf, hc⟩ := no_name_no_rows db identifier hno
  fin_cases hcmd <;>
    simp [CKGTool.execute, search_function, search_class, search_class_method,
      search_struct, search_enum, search_interface, search_trait, search_module,
      search_namespace, search_type_alias, search_component, search_contract,
      search_extension, search_union, search_generic_type, query_function,
      query_class, hf, hc, pluralKind]

/-- C7 witness: searching `search_struct` for `Missing` in an empty store
yields exactly the zero-match message as output. -/
theorem c7_zero_matches_message_witness :
    (("search_struct" : String) ∈ CKGToolCommands)
    ∧ storeHasNoName emptyStore "Missing" = true
    ∧ CKGTool.execute ⟨some "search_struct", some "/repo", some "Missing", none⟩
        true true emptyStore 500
      = ToolExecResult.output
          ("No " ++ pluralKind "search_struct" ++ " named " ++ "Missing" ++ " found.") :=
  ⟨by decide, by decide,
    c7_zero_matches_message "search_struct" "/repo" "Missing" none emptyStore 500
      (by decide) (by decide)⟩

theorem strEq_of_data (a b : String) (h : a.data = b.data) : a = b := by
  cases a
  cases b
  exact congrArg String.mk h

theorem strAppend_right_inj (a b c : String) (h : a ++ b = a ++ c) : b = c := by
  have hd := congrArg String.data h
  rw [strData_append, strData_append] at hd
  exact strEq_of_data _ _ (List.append_cancel_left hd)

/-- C10: the metadata fingerprint's file scope is strictly larger than the
index's.  Every file the build walk considers passes the metadata filter,
but a file inside a hidden directory — `/repo/.venv/lib/foo.py` — passes
the metadata filter while the build walk skips it (its visitor entities
are never inserted); its name, mtime and size feed the digest, so a
change of its mtime changes the digest input, changes the
`metadata-` fingerprint whenever the digest differs, and the next
`__init__` then rebuilds. -/
theorem c10_metadata_scope (md5hex : String → String)
    (hdif : md5hex (metadata_digest_input c10_files)
      ≠ md5hex (metadata_digest_input c10_files2)) :
    (∀ f, ckgConsiders f = true → metadataIncluded f = true)
    ∧ metadataIncluded c10_hidden = true
    ∧ ckgConsiders c10_hidden = false
    ∧ c10_hidden.entries ≠ []
    ∧ construct_ckg emptyStore [c10_hidden] = (emptyStore, none)
    ∧ metadata_digest_input c10_files ≠ metadata_digest_input c10_files2
    ∧ get_file_metadata_hash md5hex c10_files
      ≠ get_file_metadata_hash md5hex c10_files2
    ∧ (ckgdatabase_init
        ⟨[("/repo", get_file_metadata_hash md5hex c10_files)],
         [(get_file_metadata_hash md5hex c10_files, emptyStore)]⟩
        "/repo" (get_file_metadata_hash md5hex c10_files2) c10_files2).built
      = true := by
  have hne : get_file_metadata_hash md5hex c10_files
      ≠ get_file_metadata_hash md5hex c10_files2 := by
    intro h
    exact hdif (strAppend_right_inj _ _ _ h)
  refine ⟨?_, by decide, by decide, by decide, by decide, by decide, hne, ?_⟩
  · intro f h
    simp only [ckgConsiders, Bool.and_eq_true] at h
    simp only [metadataIncluded, Bool.and_eq_true]
    exact ⟨h.1.1.1, h.1.1.2⟩
  · have hbeq : ((lookupA [("/repo", get_file_metadata_hash md5hex c10_files)]
        "/repo").getD "" == get_file_metadata_hash md5hex c10_files2) = false := by
      simp only [lookupA, if_pos rfl, Option.getD_some]
      exact beq_eq_false_iff_ne.mpr hne
    simp only [ckgdatabase_init, hbeq, Bool.false_eq_true, if_false]
    simp [lookupA, removeA]

/-- C10 witness: with the identity digest the two walks produce different
digest inputs, and the changed hidden-directory file forces `built = true`
on the next open. -/
theorem c10_metadata_scope_witness :
    ((fun s : String => s) (metadata_digest_input c10_files)
      ≠ (fun s : String => s) (metadata_digest_input c10_files2))
    ∧ (ckgdatabase_init
        ⟨[("/repo", get_file_metadata_hash (fun s => s) c10_files)],
         [(get_file_metadata_hash (fun s => s) c10_files, emptyStore)]⟩
        "/repo" (get_file_metadata_hash (fun s => s) c10_files2) c10_files2).built
      = true :=
  ⟨by decide,
    (c10_metadata_scope (fun s => s) (by decide)).2.2.2.2.2.2.2⟩

theorem insert_entry_functions (db : Store) (e : Entry) :
    ∃ added, (insert_entry db e).functions = db.functions ++ added := by
  cases e <;> first
    | exact ⟨_, rfl⟩
    | exact ⟨[], by simp [insert_entry, DbStmt.exec]⟩

theorem pythonImportModules_functions (fp text : String) (s e : Nat) :
    ∀ (db : Store) (cs : PyChildren),
    (pythonImportModules fp text s e db cs).functions = db.functions
  | _, .nil => rfl
  | db, .cons f c rest => by
      simp only [pythonImportModules]
      by_cases hc : (c.ty == "dotted_name") = true
      · rw [if_pos hc, pythonImportModules_functions fp text s e _ rest]
        rfl
      · rw [if_neg hc, pythonImportModules_functions fp text s e _ rest]

mutual

theorem visit_functions_mono :
    ∀ (db : Store) (n : PyNode) (fp : String) (pc : Option ClassEntry)
      (pf : Option FunctionEntry) (pm : Option ModuleEntry),
    ∃ added,
      (recursive_visit_python db n fp pc pf pm).functions = db.functions ++ added
  | db, .mk ty text startRow endRow children, fp, pc, pf, pm => by
      simp only [recursive_visit_python]
      by_cases h1 : (ty == "function_definition") = true
      · rw [if_pos h1]
        cases hn : childByField children "name" with
        | some function_name_node =>
            obtain ⟨a, ha⟩ := children_functions_mono
              (insert_entry db (.function (pythonFunctionEntry function_name_node
                (.mk ty text startRow endRow children) fp pc pf)))
              children fp pc
              (some (pythonFunctionEntry function_name_node
                (.mk ty text startRow endRow children) fp pc pf)) pm
            exact ⟨pythonFunctionEntry function_name_node
                (.mk ty text startRow endRow children) fp pc pf :: a,
              by rw [ha]; simp [insert_entry, DbStmt.exec]⟩
        | none => exact children_functions_mono db children fp pc pf pm
      · rw [if_neg h1]
        by_cases h2 : (ty == "class_definition") = true
        · rw [if_pos h2]
          cases hn : childByField children "name" with
          | some class_name_node =>
              obtain ⟨a, ha⟩ := children_functions_mono _ children fp _ pf pm
              exact ⟨a, by rw [ha]; rfl⟩
          | none => exact children_functions_mono db children fp pc pf pm
        · rw [if_neg h2]
          by_cases h3 : (ty == "import_statement") = true
          · rw [if_pos h3]
            obtain ⟨a, ha⟩ := children_functions_mono
              (pythonImportModules fp text startRow endRow db children)
              children fp pc pf pm
            exact ⟨a, by
              rw [ha, pythonImportModules_functions fp text startRow endRow db
                children]⟩
          · rw [if_neg h3]
            by_cases h4 : (ty == "import_from_statement") = true
            · rw [if_pos h4]
              cases hn : childByField children "module_name" with
              | some module_name_node =>
                  obtain ⟨a, ha⟩ := children_functions_mono _ children fp pc pf pm
                  exact ⟨a, by rw [ha]; rfl⟩
              | none => exact children_functions_mono db children fp pc pf pm
            · rw [if_neg h4]
              exact children_functions_mono db children fp pc pf pm

theorem children_functions_mono :
    ∀ (db : Store) (cs : PyChildren) (fp : String) (pc : Option ClassEntry)
      (pf : Option FunctionEntry) (pm : Option ModuleEntry),
    ∃ added,
      (visit_python_children db cs fp pc pf pm).functions = db.functions ++ added
  | db, .nil, _, _, _, _ => ⟨[], by simp [visit_python_children]⟩
  | db, .cons f c rest, fp, pc, pf, pm => by
      simp only [visit_python_children]
      obtain ⟨a1, h1⟩ := visit_functions_mono db c fp pc pf pm
      obtain ⟨a2, h2⟩ := children_functions_mono
        (recursive_visit_python db c fp pc pf pm) rest fp pc pf pm
      exact ⟨a1 ++ a2, by rw [h2, h1, List.append_assoc]⟩

end

/-- C4: visiting a `function_definition` node with both an ambient parent
class and an ambient parent function emits exactly one new `FunctionEntry`
(inserted right after the existing rows), and that entry has
`parent_class` set and `parent_function` NULL precisely when the ambient
function's line range is not contained in the ambient class's line range;
when it is contained, `parent_function` is set and `parent_class` NULL. -/
theorem c4_python_parent_rule (db : Store) (node function_name_node : PyNode)
    (file_path : String) (pc : ClassEntry) (pf : FunctionEntry)
    (pm : Option ModuleEntry)
    (hty : node.ty = "function_definition")
    (hname : node.child_by_field_name "name" = some function_name_node) :
    (∃ rest,
      (recursive_visit_python db node file_path (some pc) (some pf) pm).functions
        = db.functions
          ++ pythonFunctionEntry function_name_node node file_path (some pc)
              (some pf) :: rest)
    ∧ (¬ (pc.start_line ≤ pf.start_line ∧ pf.end_line ≤ pc.end_line) →
        (pythonFunctionEntry function_name_node node file_path (some pc)
            (some pf)).parent_class = some pc.name
        ∧ (pythonFunctionEntry function_name_node node file_path (some pc)
            (some pf)).parent_function = none)
    ∧ ((pc.start_line ≤ pf.start_line ∧ pf.end_line ≤ pc.end_line) →
        (pythonFunctionEntry function_name_node node file_path (some pc)
            (some pf)).parent_function = some pf.name
        ∧ (pythonFunctionEntry function_name_node node file_path (some pc)
            (some pf)).parent_class = none) := by
  refine ⟨?_, ?_, ?_⟩
  · obtain ⟨ty, text, startRow, endRow, children⟩ := node
    simp only [PyNode.ty] at hty
    simp only [PyNode.child_by_field_name, PyNode.children] at hname
    subst hty
    simp only [recursive_visit_python, beq_self_eq_true, if_pos, hname]
    obtain ⟨a, ha⟩ := children_functions_mono
      (insert_entry db (.function (pythonFunctionEntry function_name_node
        (.mk "function_definition" text startRow endRow children) file_path
        (some pc) (some pf))))
      children file_path (some pc)
      (some (pythonFunctionEntry function_name_node
        (.mk "function_definition" text startRow endRow children) file_path
        (some pc) (some pf))) pm
    exact ⟨a, by rw [ha]; simp [insert_entry, DbStmt.exec]⟩
  · intro hcont
    have hb : (decide (pf.start_line ≥ pc.start_line)
        && decide (pf.end_line ≤ pc.end_line)) = false := by
      rcases Decidable.not_and_iff_or_not.mp hcont with h | h <;> simp [h]
    constructor <;>
      simp [pythonFunctionEntry, pythonFunctionParents, hb]
  · intro hcont
    have hb : (decide (pf.start_line ≥ pc.start_line)
        && decide (pf.end_line ≤ pc.end_line)) = true := by
      simp [hcont.1, hcont.2, ge_iff_le]
    constructor <;>
      simp [pythonFunctionEntry, pythonFunctionParents, hb]

/-- C4 witness: a `def inner` node visited with ambient class `K`
(lines 1-10) and ambient function `g` (lines 20-30, not contained in `K`)
is classified as a method of `K`. -/
theorem c4_python_parent_rule_witness :
    c4_fn_node.ty = "function_definition"
    ∧ c4_fn_node.child_by_field_name "name" = some c4_name_node
    ∧ ¬ (c4_class.start_line ≤ c4_fun_outside.start_line
        ∧ c4_fun_outside.end_line ≤ c4_class.end_line)
    ∧ (pythonFunctionEntry c4_name_node c4_fn_node "f.py" (some c4_class)
        (some c4_fun_outside)).parent_class = some "K"
    ∧ (pythonFunctionEntry c4_name_node c4_fn_node "f.py" (some c4_class)
        (some c4_fun_outside)).parent_function = none := by
  have h := (c4_python_parent_rule emptyStore c4_fn_node c4_name_node "f.py"
    c4_class c4_fun_outside none rfl rfl).2.1 (by decide)
  exact ⟨rfl, rfl, by decide, h.1, h.2⟩

theorem filter_map_swap {α β : Type} (m : α → β) (p : β → Bool) (q : α → Bool)
    (h : ∀ a, p (m a) = q a) : ∀ l : List α, (l.map m).filter p = (l.filter q).map m
  | [] => rfl
  | a :: l => by
      simp only [List.map_cons, List.filter_cons, h]
      by_cases hq : q a = true
      · simp [hq, filter_map_swap m p q h l]
      · simp [hq, filter_map_swap m p q h l]

theorem query_function_mapBodies (f : FunctionEntry → String)
    (g : ClassEntry → String) (db : Store) (identifier : String)
    (ty : EntryType) :
    query_function (mapStoreBodies f g db) identifier ty
      = (query_function db identifier ty).map (fun e => { e with body := f e }) := by
  unfold query_function select_functions_rows mapStoreBodies
  cases ty <;>
    simp only [filter_map_swap (fun e => { e with body := f e }) _ _
        (fun a => rfl) db.functions,
      filter_map_swap (fun e => { e with body := f e }) _ _
        (fun a => rfl) (db.functions.filter (fun r => r.name == identifier))]

theorem query_class_mapBodies (f : FunctionEntry → String)
    (g : ClassEntry → String) (db : Store) (identifier : String) :
    query_class (mapStoreBodies f g db) identifier
      = (query_class db identifier).map (fun e => { e with body := g e }) := by
  unfold query_class select_classes_rows mapStoreBodies
  exact filter_map_swap (fun e => { e with body := g e }) _ _ (fun a => rfl)
    db.classes

/-- In a report the loop produced within the length budget, no truncation
happened: the body of every listed entry occurs in the report, and
anything occurring in the accumulator still occurs in the report. -/
theorem search_loop_bodies {α : Type} (maxLen : Nat) (bodyOf : α → String)
    (lineOf : α → Int → String) (total : Int) :
    ∀ (entries : List α) (index : Int) (output : String),
    strLen (search_loop maxLen true bodyOf lineOf total entries index output)
        ≤ maxLen →
    (∀ e ∈ entries, SubstrOf (bodyOf e)
        (search_loop maxLen true bodyOf lineOf total entries index output))
    ∧ (∀ s, SubstrOf s output → SubstrOf s
        (search_loop maxLen true bodyOf lineOf total entries index output))
  | [], index, output => fun _ =>
      ⟨by simp, fun s hs => by simpa [search_loop] using hs⟩
  | e :: rest, index, output => fun hlen => by
      simp only [search_loop, if_true] at hlen ⊢
      by_cases hc :
          strLen (output ++ lineOf e index ++ bodyOf e ++ "\n\n") > maxLen
      · exfalso
        rw [if_pos hc] at hlen
        rw [strLen_append, strLen_append, strLen_append, strLen_strTake] at hlen
        have hmin : min maxLen
            (strLen (output ++ lineOf e index ++ bodyOf e ++ "\n\n")) = maxLen :=
          Nat.min_eq_left (Nat.le_of_lt hc)
        have h20 : strLen "\n<response clipped> " = 20 := rfl
        omega
      · rw [if_neg hc] at hlen ⊢
        have ih := search_loop_bodies maxLen bodyOf lineOf total rest (index + 1)
          (output ++ lineOf e index ++ bodyOf e ++ "\n\n") hlen
        refine ⟨?_, ?_⟩
        · intro x hx
          rcases List.mem_cons.mp hx with hx | hx
          · subst hx
            exact ih.2 (bodyOf x)
              (substrOf_append_left _ _ _
                (substrOf_append_right _ _ _ (substrOf_self _)))
          · exact ih.1 x hx
        · intro s hs
          exact ih.2 s
            (substrOf_append_left _ _ _
              (substrOf_append_left _ _ _ (substrOf_append_left _ _ _ hs)))

/-- With `print_body = false` the loop's report is computed without
reading any body: mapping the entries through a body-only change leaves
the report unchanged. -/
theorem search_loop_no_body {α β : Type} (maxLen : Nat)
    (bodyOfA : α → String) (bodyOfB : β → String)
    (lineOfA : α → Int → String) (lineOfB : β → Int → String)
    (m : α → β) (total : Int)
    (hline : ∀ e i, lineOfB (m e) i = lineOfA e i) :
    ∀ (entries : List α) (index : Int) (output : String),
    search_loop maxLen false bodyOfB lineOfB total (entries.map m) index output
      = search_loop maxLen false bodyOfA lineOfA total entries index output
  | [], _, _ => rfl
  | e :: rest, index, output => by
      simp only [List.map_cons, search_loop, Bool.false_eq_true, if_false, hline]
      by_cases hc : strLen (output ++ lineOfA e index) > maxLen
      · rw [if_pos hc, if_pos hc]
      · rw [if_neg hc, if_neg hc]
        exact search_loop_no_body maxLen bodyOfA bodyOfB lineOfA lineOfB m total
          hline rest (index + 1) (output ++ lineOfA e index)

theorem search_shape_contains {α : Type} (entries : List α)
    (bodyOf : α → String) (lineOf : α → Int → String)
    (noMsg header : String) (maxLen : Nat)
    (hlen : strLen (if (entries.length == 0) = true then noMsg
        else search_loop maxLen true bodyOf lineOf entries.length entries 1 header)
      ≤ maxLen) :
    ∀ e ∈ entries, SubstrOf (bodyOf e)
      (if (entries.length == 0) = true then noMsg
        else search_loop maxLen true bodyOf lineOf entries.length entries 1
          header) := by
  intro e he
  cases entries with
  | nil => cases he
  | cons x xs =>
      have h0 : ((x :: xs).length == 0) = false := by simp
      rw [h0] at hlen ⊢
      simp only [Bool.false_eq_true, if_false] at hlen ⊢
      exact (search_loop_bodies maxLen bodyOf lineOf (x :: xs).length (x :: xs) 1
        header hlen).1 e he

theorem search_shape_no_body {α β : Type} (m : α → β) (entriesA : List α)
    (bodyOfA : α → String) (bodyOfB : β → String)
    (lineOfA : α → Int → String) (lineOfB : β → Int → String)
    (noMsg header : String) (maxLen : Nat)
    (hline : ∀ e i, lineOfB (m e) i = lineOfA e i) :
    (if (entriesA.length == 0) = true then noMsg
      else search_loop maxLen false bodyOfB lineOfB entriesA.length
        (entriesA.map m) 1 header)
    = (if (entriesA.length == 0) = true then noMsg
      else search_loop maxLen false bodyOfA lineOfA entriesA.length entriesA 1
        header) := by
  by_cases h0 : (entriesA.length == 0) = true
  · rw [h0]
    simp
  · simp only [h0, Bool.false_eq_true, if_false]
    exact search_loop_no_body maxLen bodyOfA bodyOfB lineOfA lineOfB m
      entriesA.length hline entriesA 1 header

/-- C8 counterexample: with `print_body = true` and a length budget of 10,
the matched entity `c8_e2` (a free function named `f`) has its stored body
absent from the report — output truncation clips the report before the
second entry, so the report does not contain the span text of every
matched entity. -/
theorem c8_counterexample :
    c8_e2 ∈ query_function c8_db "f" EntryType.function
    ∧ ¬ SubstrOf c8_e2.body (search_function c8_db "f" true 10) := by
  refine ⟨by decide, ?_⟩
  intro h
  have hle := substrOf_len_le _ _ h
  have h1 : strLen (search_function c8_db "f" true 10) = 54 := by decide
  have h2 : strLen c8_e2.body = 60 := by decide
  omega

/-- C8 (amended): for every search command, with `print_body = false` the
report never reads any matched entity's body (replacing every stored body
leaves the report unchanged), and with `print_body = true` the report
contains the exact stored span text of every matched entity provided it
stays within the length budget; once the report exceeds the budget it is
truncated, and bodies of later matches are dropped. -/
theorem c8_amended (command identifier : String) (db : Store) (maxLen : Nat)
    (hcmd : command ∈ CKGToolCommands)
    (hlen : strLen (searchDispatch command db identifier true maxLen) ≤ maxLen) :
    (∀ f g, searchDispatch command (mapStoreBodies f g db) identifier false maxLen
        = searchDispatch command db identifier false maxLen)
    ∧ (∀ b ∈ matchedBodies command db identifier,
        SubstrOf b (searchDispatch command db identifier true maxLen)) := by
  fin_cases hcmd <;> refine ⟨fun f g => ?_, fun b hb => ?_⟩ <;>
    first
    | (simp only [searchDispatch, search_function, search_class,
        search_class_method, search_struct, search_enum, search_interface,
        search_trait, search_module, search_namespace, search_type_alias,
        search_component, search_contract, search_extension, search_union,
        search_generic_type, query_function_mapBodies, query_class_mapBodies]
       rw [List.length_map]
       exact search_shape_no_body _ _ _ _ _ _ _ _ _ (fun e i => rfl))
    | (simp only [matchedBodies] at hb
       obtain ⟨e, he, rfl⟩ := List.mem_map.mp hb
       simp only [searchDispatch, search_function, search_class,
         search_class_method, search_struct, search_enum, search_interface,
         search_trait, search_module, search_namespace, search_type_alias,
         search_component, search_contract, search_extension, search_union,
         search_generic_type] at hlen ⊢
       exact search_shape_contains _ _ _ _ _ _ hlen e he)

set_option maxRecDepth 4000 in
/-- C8 witness: `search_function` over a two-match store within a budget
of 2000 — the report is body-independent when `print_body` is false, and
contains both stored bodies when it is true. -/
theorem c8_amended_witness :
    (("search_function" : String) ∈ CKGToolCommands)
    ∧ strLen (searchDispatch "search_function" c8_db "f" true 2000) ≤ 2000
    ∧ ((∀ f g, searchDispatch "search_function" (mapStoreBodies f g c8_db) "f"
          false 2000
        = searchDispatch "search_function" c8_db "f" false 2000)
      ∧ ∀ b ∈ matchedBodies "search_function" c8_db "f",
          SubstrOf b (searchDispatch "search_function" c8_db "f" true 2000)) :=
  ⟨by decide, by decide,
    c8_amended "search_function" "f" c8_db 2000 (by decide) (by decide)⟩

end Juggler
